import Mathlib

/-!
Shallow embedding of the `cubiomes` safe-wrapper layer
(`cubiomes/src/generator.rs`).

The external world-generation engine is opaque: the wrapper only calls it
through five foreign functions (`setupGenerator`, `applySeed`, `getBiomeAt`,
`getMinCacheSize`, `genBiomes`).  We model the engine as a record of pure
functions over an abstract state type `σ`; theorems quantify over it, and
concrete witnesses instantiate it.

Machine integers: the wrapper's coordinate arithmetic is Rust `i32`
arithmetic.  We model it with `Int` plus explicit two's-complement wrapping
(`wrap32`, release-build semantics; debug builds would panic at the same
inputs where the wrap differs from the mathematical value).  The `as usize`
cast of an `i32` on a 64-bit target is sign extension (`usizeOfI32`), and
`transmute::<i64, u64>` is bit reinterpretation (`i64_as_u64`).
-/

namespace Cubiomes

/-- Two's-complement wrap-around of an integer into the `i32` range
`[-2^31, 2^31)`, the semantics of Rust release-mode `i32` arithmetic. -/
def wrap32 (n : Int) : Int :=
  (n + 2 ^ 31) % 2 ^ 32 - 2 ^ 31

/-- Rust `i32` multiplication (wrapping). -/
def i32mul (a b : Int) : Int := wrap32 (a * b)

/-- Rust `i32` addition (wrapping). -/
def i32add (a b : Int) : Int := wrap32 (a + b)

/-- The `as usize` cast applied to an `i32` value on a 64-bit target:
sign-extend to 64 bits and reinterpret as unsigned. -/
def usizeOfI32 (n : Int) : Nat := (n % 2 ^ 64).toNat

/-- `transmute::<i64, u64>`: reinterpret the two's-complement bit pattern of
an `i64` as an unsigned 64-bit integer. -/
def i64_as_u64 (seed : Int) : Nat := (seed % 2 ^ 64).toNat

/-- The error taxonomy `GeneratorError` of `generator.rs`. -/
inductive GeneratorError where
  | BiomeIDOutOfRange (code : Int)
  | GetBiomeAtFailure
  | GenBiomeToCacheFailure (status : Int)
  | IndexOutOfBound
deriving DecidableEq

/-- The `Scale` enum of `generator.rs`: `Block = 1`, `Biome = 4`. -/
inductive Scale where
  | Block
  | Biome
deriving DecidableEq

/-- The numeric value of a `Scale` (its `as i32` cast). -/
def Scale.toI32 : Scale → Int
  | .Block => 1
  | .Biome => 4

/-- Modelled from the spec: the biome classification enumeration.  The real
enum is generated by bindgen from the engine's `biomes.h` (not part of this
repository's sources) with `FromPrimitive`/`ToPrimitive` derives; the spec
describes it as a closed set of known classes, each with a fixed raw integer
code, with fallible conversion from raw codes.  We model a representative
closed set of variants with their engine codes. -/
inductive BiomeID where
  | ocean
  | plains
  | desert
  | windsweptHills
  | forest
  | taiga
  | swamp
  | river
  | netherWastes
  | theEnd
  | frozenOcean
  | frozenRiver
  | cherryGrove
deriving DecidableEq

/-- The numeric value of a `BiomeID` (the `ToPrimitive` direction): the
discriminant assigned by the engine's header. -/
def BiomeID.toI32 : BiomeID → Int
  | .ocean => 0
  | .plains => 1
  | .desert => 2
  | .windsweptHills => 3
  | .forest => 4
  | .taiga => 5
  | .swamp => 6
  | .river => 7
  | .netherWastes => 8
  | .theEnd => 9
  | .frozenOcean => 10
  | .frozenRiver => 11
  | .cherryGrove => 185

/-- All variants of the modelled classification enumeration. -/
def BiomeID.all : List BiomeID :=
  [.ocean, .plains, .desert, .windsweptHills, .forest, .taiga, .swamp,
   .river, .netherWastes, .theEnd, .frozenOcean, .frozenRiver, .cherryGrove]

/-- `FromPrimitive::from_i32` for the classification enumeration: the variant
whose discriminant equals the given code, if any. -/
def BiomeID.from_i32 (n : Int) : Option BiomeID :=
  BiomeID.all.find? fun b => b.toI32 == n

/-- The engine-side `Range` struct (all fields C `int`): scale, origin,
and extents of a rectangular region. -/
structure Range where
  scale : Int
  x : Int
  z : Int
  sx : Int
  sz : Int
  y : Int
  sy : Int
deriving DecidableEq

/-- The opaque engine, as the wrapper sees it: a record of the five foreign
functions it calls, over an abstract generator-state type `σ`.  `genBiomes`
both returns a status code and overwrites the caller's buffer; we split it
into `genBiomesStatus` and `genBiomesMem` (the buffer memory contents after
the call, an arbitrary function of state and range — covering engine-written
data as well as garbage left on a failed or partial fill). -/
structure Engine (σ : Type) where
  setupGenerator : Int → Nat → σ
  applySeed : σ → Int → Nat → σ
  getBiomeAt : σ → Int → Int → Int → Int → Int
  getMinCacheSize : σ → Int → Int → Int → Int → Nat
  genBiomesStatus : σ → Range → Int
  genBiomesMem : σ → Range → Nat → Int

/-- The `Generator` wrapper struct: owns the opaque engine state. -/
structure Generator (σ : Type) where
  generator : σ

/-- The `Cache` struct: a buffer of raw codes (`cache` models the
initialized prefix of the `Vec<i32>`, i.e. its visible length), the `Vec`'s
allocated capacity, the region it was sized for, and the borrowed
generator. -/
structure Cache (σ : Type) where
  cache : List Int
  capacity : Nat
  range : Range
  generator : Generator σ

/-- `Generator::new`: initializes engine state for a version and flags. -/
def Generator.new (eng : Engine σ) (version : Int) (flags : Nat) :
    Generator σ :=
  ⟨eng.setupGenerator version flags⟩

/-- `Generator::apply_seed`: passes the dimension's raw value and
`transmute(seed)` to the engine. -/
def Generator.apply_seed (eng : Engine σ) (g : Generator σ)
    (dimension : Int) (seed : Int) : Generator σ :=
  ⟨eng.applySeed g.generator dimension (i64_as_u64 seed)⟩

/-- `Generator::get_biome_at` (single-point query): `-1` from the engine is
the failure sentinel; any other code is converted fallibly. -/
def Generator.get_biome_at (eng : Engine σ) (g : Generator σ)
    (scale : Scale) (x y z : Int) : Except GeneratorError BiomeID :=
  if eng.getBiomeAt g.generator scale.toI32 x y z = -1 then
    .error .GetBiomeAtFailure
  else
    match BiomeID.from_i32 (eng.getBiomeAt g.generator scale.toI32 x y z) with
    | some b => .ok b
    | none =>
      .error (.BiomeIDOutOfRange (eng.getBiomeAt g.generator scale.toI32 x y z))

/-- `Generator::get_min_cache_size`: directly the engine's
`getMinCacheSize`. -/
def Generator.get_min_cache_size (eng : Engine σ) (g : Generator σ)
    (scale sx sy sz : Int) : Nat :=
  eng.getMinCacheSize g.generator scale sx sy sz

/-- `Generator::get_min_cache_size_from_range`. -/
def Generator.get_min_cache_size_from_range (eng : Engine σ)
    (g : Generator σ) (r : Range) : Nat :=
  Generator.get_min_cache_size eng g r.scale r.sx r.sy r.sz

/-- `Generator::generate_biomes_to_cache`: calls `genBiomes`, then
unconditionally `set_len`s the buffer to the freshly re-read minimum cache
size (making the engine-written / leftover memory visible), and only then
checks the status code. -/
def Generator.generate_biomes_to_cache (eng : Engine σ) (g : Generator σ)
    (c : Cache σ) : Except GeneratorError Unit × Cache σ :=
  let result_num := eng.genBiomesStatus g.generator c.range
  let newLen := Generator.get_min_cache_size_from_range eng g c.range
  let c' : Cache σ :=
    { c with cache := (List.range newLen).map (eng.genBiomesMem g.generator c.range) }
  if result_num ≠ 0 then
    (.error (.GenBiomeToCacheFailure result_num), c')
  else
    (.ok (), c')

/-- `Generator::new_cache`: computes the required capacity, allocates an
empty `Vec` with that capacity (length 0), and stores the range and the
borrowed generator.  No bulk-fill engine call happens. -/
def Generator.new_cache (eng : Engine σ) (g : Generator σ) (r : Range) :
    Cache σ :=
  { cache := []
    capacity := Generator.get_min_cache_size_from_range eng g r
    range := r
    generator := g }

/-- The linear index computed by `Cache::get_biome_at`:
`y * sx * sz + z * sx + x` in wrapping `i32` arithmetic, left associated as
in the source. -/
def Cache.cacheIndex (r : Range) (x y z : Int) : Int :=
  i32add (i32add (i32mul (i32mul y r.sx) r.sz) (i32mul z r.sx)) x

/-- `Cache::fill_cache`: delegates to
`Generator::generate_biomes_to_cache` on the borrowed generator. -/
def Cache.fill_cache (eng : Engine σ) (c : Cache σ) :
    Except GeneratorError Unit × Cache σ :=
  Generator.generate_biomes_to_cache eng c.generator c

/-- `Cache::get_cache`: read access to the raw buffer. -/
def Cache.get_cache (c : Cache σ) : List Int := c.cache

/-- `Cache::get_biome_at`: bounds-checked lookup (`Vec::get`) at the linear
index cast `as usize`, then fallible conversion of the stored raw code. -/
def Cache.get_biome_at (c : Cache σ) (x y z : Int) :
    Except GeneratorError BiomeID :=
  match c.cache.get? (usizeOfI32 (Cache.cacheIndex c.range x y z)) with
  | none => .error .IndexOutOfBound
  | some raw =>
    match BiomeID.from_i32 raw with
    | some b => .ok b
    | none => .error (.BiomeIDOutOfRange raw)

/-- A generator wrapper over the trivial engine-state type, for concrete
instantiations. -/
def unitGenerator : Generator Unit := ⟨()⟩

/-- A concrete engine over trivial state: every bulk fill succeeds with
status 0, the minimum cache size is the extents product, and the memory the
engine leaves in the buffer holds raw code 0 (`ocean`) everywhere. -/
def okEngine : Engine Unit where
  setupGenerator := fun _ _ => ()
  applySeed := fun s _ _ => s
  getBiomeAt := fun _ _ _ _ _ => 1
  getMinCacheSize := fun _ _ sx sy sz => (sx * sy * sz).toNat
  genBiomesStatus := fun _ _ => 0
  genBiomesMem := fun _ _ _ => 0

/-- Like `okEngine`, but every bulk fill fails with status 1. -/
def failEngine : Engine Unit :=
  { okEngine with genBiomesStatus := fun _ _ => 1 }

/-- A region of extents (1, 1, 1). -/
def range111 : Range :=
  { scale := 4, x := 0, z := 0, sx := 1, sz := 1, y := 0, sy := 1 }

/-- A region of extents sx = 2, sy = 1, sz = 2. -/
def range212 : Range :=
  { scale := 4, x := 0, z := 0, sx := 2, sz := 2, y := 0, sy := 1 }

/-- A region whose volume 65536 * 2 * 32768 = 2^33 exceeds the `i32` range,
so the index computation wraps. -/
def bigRange : Range :=
  { scale := 4, x := 0, z := 0, sx := 65536, sz := 32768, y := 0, sy := 2 }

/-- A region violating the spec's Region invariant: non-positive extents and
a scale that is neither 1 nor 4. -/
def badRange : Range :=
  { scale := 7, x := 0, z := 0, sx := -1, sz := 0, y := 0, sy := -5 }

/-- The cache over `range111` after a successful fill by `okEngine`. -/
def filledCache111 : Cache Unit :=
  (Cache.fill_cache okEngine (Generator.new_cache okEngine unitGenerator range111)).2

/-- The cache over `bigRange` after a successful fill by `okEngine`. -/
def filledBigCache : Cache Unit :=
  (Cache.fill_cache okEngine (Generator.new_cache okEngine unitGenerator bigRange)).2

/-! ## Helper lemmas -/

/-- `wrap32` is the identity on the `i32` range. -/
theorem wrap32_eq_self {n : Int} (h1 : -(2 ^ 31) ≤ n) (h2 : n < 2 ^ 31) :
    wrap32 n = n := by
  unfold wrap32; omega

/-- `wrap32` always lands in the `i32` range. -/
theorem wrap32_mem (n : Int) : -(2 ^ 31) ≤ wrap32 n ∧ wrap32 n < 2 ^ 31 := by
  unfold wrap32; omega

/-- The computed cache index is always in the `i32` range. -/
theorem cacheIndex_mem (r : Range) (x y z : Int) :
    -(2 ^ 31) ≤ Cache.cacheIndex r x y z ∧ Cache.cacheIndex r x y z < 2 ^ 31 := by
  unfold Cache.cacheIndex i32add
  exact wrap32_mem _

/-- The `as usize` cast of a nonnegative `i32` value is its natural value. -/
theorem usizeOfI32_of_nonneg {n : Int} (h0 : 0 ≤ n) (h1 : n < 2 ^ 31) :
    usizeOfI32 n = n.toNat := by
  unfold usizeOfI32; omega

/-- The `as usize` cast of a negative `i32` value is huge (sign extension
lands it above 2^63). -/
theorem usizeOfI32_of_neg {n : Int} (h0 : -(2 ^ 31) ≤ n) (h1 : n < 0) :
    2 ^ 63 ≤ usizeOfI32 n := by
  unfold usizeOfI32; omega

/-- When no step of the `i32` computation overflows, the cache index is the
mathematical row-major index. -/
theorem cacheIndex_eq_of_no_overflow (r : Range) (x y z : Int)
    (h1 : -(2 ^ 31) ≤ y * r.sx) (h2 : y * r.sx < 2 ^ 31)
    (h3 : -(2 ^ 31) ≤ y * r.sx * r.sz) (h4 : y * r.sx * r.sz < 2 ^ 31)
    (h5 : -(2 ^ 31) ≤ z * r.sx) (h6 : z * r.sx < 2 ^ 31)
    (h7 : -(2 ^ 31) ≤ y * r.sx * r.sz + z * r.sx)
    (h8 : y * r.sx * r.sz + z * r.sx < 2 ^ 31)
    (h9 : -(2 ^ 31) ≤ y * r.sx * r.sz + z * r.sx + x)
    (h10 : y * r.sx * r.sz + z * r.sx + x < 2 ^ 31) :
    Cache.cacheIndex r x y z = y * r.sx * r.sz + z * r.sx + x := by
  unfold Cache.cacheIndex i32mul i32add
  rw [wrap32_eq_self h1 h2, wrap32_eq_self h3 h4, wrap32_eq_self h5 h6,
    wrap32_eq_self h7 h8, wrap32_eq_self h9 h10]

/-- The row-major index of an in-range coordinate triple lies in
`[0, sx * sy * sz)`. -/
theorem rowmajor_index_bounds (sx sy sz x y z : Int)
    (hx0 : 0 ≤ x) (hx : x < sx) (hy0 : 0 ≤ y) (hy : y < sy)
    (hz0 : 0 ≤ z) (hz : z < sz) :
    0 ≤ y * sx * sz + z * sx + x ∧
      y * sx * sz + z * sx + x < sx * sy * sz := by
  have hsx : 0 < sx := lt_of_le_of_lt hx0 hx
  have hsz : 0 < sz := lt_of_le_of_lt hz0 hz
  have a1 : 0 ≤ y * sx := mul_nonneg hy0 hsx.le
  have a2 : 0 ≤ y * sx * sz := mul_nonneg a1 hsz.le
  have a3 : 0 ≤ z * sx := mul_nonneg hz0 hsx.le
  refine ⟨by linarith, ?_⟩
  have b1 : z * sx + x < (z + 1) * sx := by
    have : (z + 1) * sx = z * sx + sx := by ring
    linarith
  have b2 : (z + 1) * sx ≤ sz * sx :=
    mul_le_mul_of_nonneg_right (by linarith) hsx.le
  have b3 : y * sx * sz + sz * sx = (y + 1) * (sx * sz) := by ring
  have b4 : (y + 1) * (sx * sz) ≤ sy * (sx * sz) :=
    mul_le_mul_of_nonneg_right (by linarith) (mul_nonneg hsx.le hsz.le)
  have b5 : sy * (sx * sz) = sx * sy * sz := by ring
  linarith

/-- Lookup in a mapped range list, in-bounds case. -/
theorem get?_range_map {α : Type} (f : Nat → α) (L i : Nat) (h : i < L) :
    ((List.range L).map f).get? i = some (f i) := by
  rw [List.get?_eq_some]
  exact ⟨by simpa using h, by simp⟩

/-- Lookup in a mapped range list, out-of-bounds case. -/
theorem get?_range_map_none {α : Type} (f : Nat → α) (L i : Nat) (h : L ≤ i) :
    ((List.range L).map f).get? i = none := by
  rw [List.get?_eq_none]
  simpa using h

/-- The buffer of the filled big cache is the engine memory over indices
`[0, 2^32)`. -/
theorem filledBigCache_cache_eq :
    filledBigCache.cache
      = (List.range 4294967296).map (okEngine.genBiomesMem () bigRange) := by
  have hL : okEngine.getMinCacheSize () bigRange.scale bigRange.sx
      bigRange.sy bigRange.sz = 4294967296 := by decide
  unfold filledBigCache Cache.fill_cache Generator.generate_biomes_to_cache
    Generator.new_cache Generator.get_min_cache_size_from_range
    Generator.get_min_cache_size
  rw [if_neg (by decide)]
  dsimp only
  rw [hL]

/-- A cache get whose bounds-checked lookup misses is `IndexOutOfBound`. -/
theorem get_biome_at_eq_oob_of {σ : Type} (c : Cache σ) (x y z : Int)
    (h : c.cache.get? (usizeOfI32 (Cache.cacheIndex c.range x y z)) = none) :
    c.get_biome_at x y z = .error .IndexOutOfBound := by
  unfold Cache.get_biome_at
  rw [h]

/-- A cache get whose bounds-checked lookup hits converts the stored raw
code. -/
theorem get_biome_at_eq_conv_of {σ : Type} (c : Cache σ) (x y z raw : Int)
    (h : c.cache.get? (usizeOfI32 (Cache.cacheIndex c.range x y z))
      = some raw) :
    c.get_biome_at x y z =
      match BiomeID.from_i32 raw with
      | some b => .ok b
      | none => .error (.BiomeIDOutOfRange raw) := by
  unfold Cache.get_biome_at
  rw [h]

/-- The wrapped index of coordinates (0, 1, 0) in `bigRange` is -2^31
(the multiplication 1 * 65536 * 32768 overflows `i32`), so its `as usize`
cast lands far past any buffer. -/
theorem bigRange_wrapped_index :
    usizeOfI32 (Cache.cacheIndex bigRange 0 1 0) = 18446744071562067968 := by
  have h1 : Cache.cacheIndex bigRange 0 1 0 = -(2 ^ 31) := by
    norm_num [Cache.cacheIndex, i32mul, i32add, wrap32, bigRange]
  have h2 : usizeOfI32 (-(2 ^ 31)) = 18446744071562067968 := by decide
  rw [h1, h2]

/-- On the filled big cache, the in-range coordinates (0, 1, 0) make the
`i32` index computation wrap to -2^31, whose `as usize` cast lands far past
the buffer, so the lookup fails. -/
theorem filledBigCache_get_oob :
    filledBigCache.get_biome_at 0 1 0 = .error .IndexOutOfBound := by
  have hrange : filledBigCache.range = bigRange := rfl
  have hnone := get?_range_map_none (okEngine.genBiomesMem () bigRange)
    4294967296 18446744071562067968 (by norm_num)
  apply get_biome_at_eq_oob_of
  rw [hrange, bigRange_wrapped_index, filledBigCache_cache_eq]
  exact hnone

/-! ## Claim theorems -/

/-- C1: the claim says that after a fill returning `FillFailure` the cache
remains logically unfilled, so every subsequent get fails.  The code refutes
it: `generate_biomes_to_cache` calls `set_len` before checking the status
code and tracks no fill state, so after a failed fill (status 1) the call
`get_biome_at 0 0 0` returns the engine-written/leftover buffer contents as
a valid classification instead of failing. -/
theorem fill_failure_then_get_succeeds :
    (Cache.fill_cache failEngine
        (Generator.new_cache failEngine unitGenerator range111)).1
      = .error (.GenBiomeToCacheFailure 1) ∧
    (Cache.fill_cache failEngine
        (Generator.new_cache failEngine unitGenerator range111)).2.get_biome_at 0 0 0
      = .ok .ocean :=
  ⟨rfl, rfl⟩

/-- C2 (counterexample): a negative coordinate does not force an
`IndexOutOfBound` failure.  For the 2×1×2 region, after a successful fill,
`get_biome_at (-1) 0 1` has a negative x coordinate yet its computed index
is 0 * 2 * 2 + 1 * 2 + (-1) = 1, in bounds, so the call succeeds. -/
theorem negative_coordinate_get_succeeds :
    ((-1 : Int) < 0) ∧
    (Cache.fill_cache okEngine
        (Generator.new_cache okEngine unitGenerator range212)).1 = .ok () ∧
    (Cache.fill_cache okEngine
        (Generator.new_cache okEngine unitGenerator range212)).2.get_biome_at (-1) 0 1
      = .ok .ocean :=
  ⟨by decide, rfl, rfl⟩

/-- C2 (amended): `get_biome_at` fails with `IndexOutOfBound` exactly when
the computed linear index — taken through the wrapping `i32` arithmetic and
the `as usize` cast — is at least the buffer length; any coordinate triple
whose computed (wrapped) index is negative fails, given the Rust-guaranteed
bound on `Vec` length; and for a region of extents (1,1,1) with filled
length at most 1, `get_biome_at 1 0 0` fails. -/
theorem get_index_out_of_bound_iff {σ : Type} (c : Cache σ) (x y z : Int)
    (hlen : c.cache.length < 2 ^ 63) :
    (c.get_biome_at x y z = .error .IndexOutOfBound ↔
      c.cache.length ≤ usizeOfI32 (Cache.cacheIndex c.range x y z)) ∧
    (Cache.cacheIndex c.range x y z < 0 →
      c.get_biome_at x y z = .error .IndexOutOfBound) ∧
    (c.range.sx = 1 → c.range.sz = 1 → c.cache.length ≤ 1 →
      c.get_biome_at 1 0 0 = .error .IndexOutOfBound) := by
  have main : ∀ x' y' z' : Int,
      c.get_biome_at x' y' z' = .error .IndexOutOfBound ↔
        c.cache.length ≤ usizeOfI32 (Cache.cacheIndex c.range x' y' z') := by
    intro x' y' z'
    unfold Cache.get_biome_at
    rcases h : c.cache.get? (usizeOfI32 (Cache.cacheIndex c.range x' y' z'))
      with _ | raw
    · simp only [List.get?_eq_none] at h
      simp [h]
    · have hlt : ¬ c.cache.length ≤
          usizeOfI32 (Cache.cacheIndex c.range x' y' z') := by
        intro hle
        rw [List.get?_eq_none.mpr hle] at h
        exact Option.noConfusion h
      rcases hb : BiomeID.from_i32 raw with _ | b <;> simp [hb, hlt]
  refine ⟨main x y z, ?_, ?_⟩
  · intro hneg
    refine (main x y z).mpr ?_
    have hge := usizeOfI32_of_neg (cacheIndex_mem c.range x y z).1 hneg
    omega
  · intro hsx hsz hle
    refine (main 1 0 0).mpr ?_
    have hidx : Cache.cacheIndex c.range 1 0 0 = 1 := by
      unfold Cache.cacheIndex i32mul i32add
      rw [hsx, hsz]
      norm_num [wrap32_eq_self]
    rw [hidx]
    have : usizeOfI32 1 = 1 := by unfold usizeOfI32; omega
    omega

/-- C2 witness: the amended theorem applied to the filled (1,1,1) cache at
the claim's own example coordinates (1, 0, 0). -/
theorem get_index_out_of_bound_iff_witness :
    filledCache111.cache.length < 2 ^ 63 ∧
    filledCache111.get_biome_at 1 0 0 = .error .IndexOutOfBound :=
  ⟨by norm_num [show filledCache111.cache = [0] from rfl],
   (get_index_out_of_bound_iff filledCache111 1 0 0
      (by norm_num [show filledCache111.cache = [0] from rfl])).2.2
     rfl rfl (by norm_num [show filledCache111.cache = [0] from rfl])⟩

/-- C3: a freshly bound cache has an empty (length-0) buffer, so every get
fails with `IndexOutOfBound`; binding computes the required capacity
immediately from the engine, and touches no other engine capability (any
engine agreeing on `getMinCacheSize` yields the identical cache, so no
bulk-fill call can have happened). -/
theorem new_cache_unfilled_get_fails {σ : Type} (eng eng2 : Engine σ)
    (g : Generator σ) (r : Range) (x y z : Int)
    (h : eng2.getMinCacheSize = eng.getMinCacheSize) :
    (Generator.new_cache eng g r).get_biome_at x y z
        = .error .IndexOutOfBound ∧
    (Generator.new_cache eng g r).capacity
        = Generator.get_min_cache_size_from_range eng g r ∧
    (Generator.new_cache eng g r).cache = [] ∧
    Generator.new_cache eng2 g r = Generator.new_cache eng g r := by
  refine ⟨?_, rfl, rfl, ?_⟩
  · unfold Generator.new_cache Cache.get_biome_at
    rw [List.get?_eq_none.mpr (by simp)]
  · unfold Generator.new_cache Generator.get_min_cache_size_from_range
      Generator.get_min_cache_size
    rw [h]

/-- C3 witness: the fresh (1,1,1) cache fails at (0,0,0). -/
theorem new_cache_unfilled_get_fails_witness :
    okEngine.getMinCacheSize = okEngine.getMinCacheSize ∧
    (Generator.new_cache okEngine unitGenerator range111).get_biome_at 0 0 0
      = .error .IndexOutOfBound :=
  ⟨rfl, (new_cache_unfilled_get_fails okEngine okEngine unitGenerator
    range111 0 0 0 rfl).1⟩

/-- C8: partial round-trip of the classification conversion — whenever
`from_i32` succeeds, converting the classification back to its numeric
value recovers the original code. -/
theorem from_i32_toI32_roundtrip (n : Int) (b : BiomeID)
    (h : BiomeID.from_i32 n = some b) : b.toI32 = n := by
  unfold BiomeID.from_i32 at h
  have := List.find?_some h
  simpa using this

/-- C8 witness: code 0 converts to `ocean` and back to 0. -/
theorem from_i32_toI32_roundtrip_witness :
    BiomeID.from_i32 0 = some .ocean ∧ BiomeID.toI32 .ocean = 0 :=
  ⟨by decide, from_i32_toI32_roundtrip 0 .ocean (by decide)⟩

/-- C9 (counterexample): `new_cache` performs no validation, so a cache is
constructed over a region with non-positive extents and a scale that is
neither of the two recognized granularities. -/
theorem new_cache_accepts_invalid_region :
    (Generator.new_cache okEngine unitGenerator badRange).range = badRange ∧
    badRange.sx ≤ 0 ∧ badRange.sz ≤ 0 ∧ badRange.sy ≤ 0 ∧
    badRange.scale ≠ 1 ∧ badRange.scale ≠ 4 :=
  ⟨rfl, by decide, by decide, by decide, by decide, by decide⟩

/-- C9 (amended): the wrapper does not enforce the Region invariant —
`new_cache` binds a cache to any caller-supplied `Range` verbatim; only the
typed `Scale` enum used by single-point queries is restricted to the two
recognized granularities 1 and 4. -/
theorem new_cache_range_unvalidated {σ : Type} (eng : Engine σ)
    (g : Generator σ) (r : Range) :
    (Generator.new_cache eng g r).range = r ∧
    (∀ s : Scale, s.toI32 = 1 ∨ s.toI32 = 4) :=
  ⟨rfl, by intro s; cases s <;> simp [Scale.toI32]⟩

/-- C6: single-point queries fail with `GetBiomeAtFailure` exactly when the
engine returns the sentinel -1 (which the engine documents for unseeded
handles); they fail with `BiomeIDOutOfRange m` exactly when the engine
returns a non-sentinel code m with no known classification mapping,
preserving the raw code; otherwise they return the mapped classification. -/
theorem get_biome_at_point_characterization {σ : Type} (eng : Engine σ)
    (g : Generator σ) (scale : Scale) (x y z : Int) :
    (Generator.get_biome_at eng g scale x y z = .error .GetBiomeAtFailure ↔
      eng.getBiomeAt g.generator scale.toI32 x y z = -1) ∧
    (∀ b : BiomeID, Generator.get_biome_at eng g scale x y z = .ok b ↔
      (eng.getBiomeAt g.generator scale.toI32 x y z ≠ -1 ∧
        BiomeID.from_i32 (eng.getBiomeAt g.generator scale.toI32 x y z)
          = some b)) ∧
    (∀ m : Int, Generator.get_biome_at eng g scale x y z
        = .error (.BiomeIDOutOfRange m) ↔
      (m = eng.getBiomeAt g.generator scale.toI32 x y z ∧ m ≠ -1 ∧
        BiomeID.from_i32 m = none)) := by
  unfold Generator.get_biome_at
  generalize eng.getBiomeAt g.generator scale.toI32 x y z = n
  by_cases hsent : n = -1
  · subst hsent
    simp
  · rcases hb : BiomeID.from_i32 n with _ | b
    · simp only [if_neg hsent, hb]
      refine ⟨by simp [hsent], fun b' => by simp, fun m => ?_⟩
      constructor
      · intro hEq
        have h2 := GeneratorError.BiomeIDOutOfRange.inj (Except.error.inj hEq)
        subst h2
        exact ⟨rfl, hsent, hb⟩
      · rintro ⟨rfl, _, _⟩
        rfl
    · simp only [if_neg hsent, hb]
      refine ⟨by simp [hsent], fun b' => ?_, fun m => ?_⟩
      · constructor
        · intro hEq
          refine ⟨hsent, ?_⟩
          rw [Except.ok.inj hEq]
        · rintro ⟨_, hsome⟩
          rw [Option.some.inj hsome]
      · constructor
        · intro hEq
          exact absurd hEq (by simp)
        · rintro ⟨rfl, _, hnone⟩
          rw [hb] at hnone
          exact Option.noConfusion hnone

/-- C7: `fill_cache` fails with `GenBiomeToCacheFailure code` exactly when
the engine's bulk-fill status `code` is non-zero (the status preserved
verbatim), succeeds exactly when the status is zero, and in either case the
buffer length afterwards is the freshly re-read minimum cache size reported
by the engine for the handle and range. -/
theorem fill_cache_status_and_length {σ : Type} (eng : Engine σ)
    (c : Cache σ) :
    ((Cache.fill_cache eng c).2.cache.length
        = Generator.get_min_cache_size_from_range eng c.generator c.range) ∧
    ((Cache.fill_cache eng c).2.range = c.range) ∧
    (∀ code : Int,
      (Cache.fill_cache eng c).1 = .error (.GenBiomeToCacheFailure code) ↔
        (code = eng.genBiomesStatus c.generator.generator c.range ∧
          code ≠ 0)) ∧
    ((Cache.fill_cache eng c).1 = .ok () ↔
      eng.genBiomesStatus c.generator.generator c.range = 0) := by
  unfold Cache.fill_cache Generator.generate_biomes_to_cache
  by_cases hs : eng.genBiomesStatus c.generator.generator c.range ≠ 0
  · rw [if_pos hs]
    refine ⟨by simp, rfl, fun code => ?_, ?_⟩
    · constructor
      · intro hEq
        have h2 := GeneratorError.GenBiomeToCacheFailure.inj (Except.error.inj hEq)
        constructor
        · omega
        · omega
      · rintro ⟨rfl, _⟩
        rfl
    · constructor
      · intro hEq
        exact absurd hEq (by simp)
      · intro h0
        exact absurd h0 hs
  · rw [if_neg hs]
    push_neg at hs
    refine ⟨by simp, rfl, fun code => ?_, ?_⟩
    · constructor
      · intro hEq
        exact absurd hEq (by simp)
      · rintro ⟨rfl, hne⟩
        exact absurd hs hne
    · exact ⟨fun _ => hs, fun _ => rfl⟩

/-- C10: `apply_seed` hands the engine the two's-complement bit
reinterpretation of the `i64` seed as an unsigned 64-bit value — equal to
the seed itself when nonnegative and to `2^64 + seed` when negative, and
injective on the `i64` range (the bit pattern is preserved exactly) — is
total, and changes nothing but the wrapped generator state. -/
theorem apply_seed_bit_reinterpretation {σ : Type} (eng : Engine σ)
    (g : Generator σ) (dimension seed : Int)
    (h1 : -(2 ^ 63) ≤ seed) (h2 : seed < 2 ^ 63) :
    (Generator.apply_seed eng g dimension seed
        = ⟨eng.applySeed g.generator dimension (i64_as_u64 seed)⟩) ∧
    (0 ≤ seed → (i64_as_u64 seed : Int) = seed) ∧
    (seed < 0 → (i64_as_u64 seed : Int) = 2 ^ 64 + seed) ∧
    (∀ s2 : Int, -(2 ^ 63) ≤ s2 → s2 < 2 ^ 63 →
      i64_as_u64 s2 = i64_as_u64 seed → s2 = seed) := by
  refine ⟨rfl, ?_, ?_, ?_⟩
  · intro h
    unfold i64_as_u64
    omega
  · intro h
    unfold i64_as_u64
    omega
  · intro s2 hlo hhi hEq
    unfold i64_as_u64 at hEq
    omega

/-- C10 witness: seed -1 is passed as 2^64 - 1. -/
theorem apply_seed_bit_reinterpretation_witness :
    (-(2 ^ 63) ≤ (-1 : Int)) ∧ ((-1 : Int) < 2 ^ 63) ∧
    ((i64_as_u64 (-1) : Int) = 2 ^ 64 + (-1)) :=
  ⟨by norm_num, by norm_num,
   (apply_seed_bit_reinterpretation okEngine unitGenerator 0 (-1)
      (by norm_num) (by norm_num)).2.2.1 (by norm_num)⟩

/-- C4 (counterexample): after a successful fill of `bigRange` (extents
65536 × 2 × 32768), the coordinate triple (0, 1, 0) is in range — each
coordinate nonnegative and below its extent — yet `get_biome_at` returns
`IndexOutOfBound` instead of a classification: the `i32` index computation
overflows (1 * 65536 * 32768 = 2^31 wraps to -2^31).  In a debug build the
same multiplication panics. -/
theorem in_range_get_not_classified :
    (Cache.fill_cache okEngine
        (Generator.new_cache okEngine unitGenerator bigRange)).1 = .ok () ∧
    ((0 : Int) ≤ 0 ∧ (0 : Int) < filledBigCache.range.sx) ∧
    ((0 : Int) ≤ 1 ∧ (1 : Int) < filledBigCache.range.sy) ∧
    ((0 : Int) ≤ 0 ∧ (0 : Int) < filledBigCache.range.sz) ∧
    filledBigCache.get_biome_at 0 1 0 = .error .IndexOutOfBound :=
  ⟨rfl, ⟨by decide, by decide⟩, ⟨by decide, by decide⟩,
   ⟨by decide, by decide⟩, filledBigCache_get_oob⟩

/-- C4 (amended): after a successful fill, for every in-range (x, y, z),
provided the region volume sx * sy * sz stays below 2^31 (so the `i32`
index computation cannot overflow; the unamended claim fails for larger
regions) and the buffer covers the volume, `get_biome_at` is total and
classifies: it returns a valid classification or `BiomeIDOutOfRange` with
the raw code, never `IndexOutOfBound`, and its only buffer access is the
bounds-checked lookup. -/
theorem get_total_in_range {σ : Type} (eng : Engine σ) (c0 c : Cache σ)
    (x y z : Int)
    (hfill : Cache.fill_cache eng c0 = (.ok (), c))
    (hx0 : 0 ≤ x) (hx : x < c.range.sx)
    (hy0 : 0 ≤ y) (hy : y < c.range.sy)
    (hz0 : 0 ≤ z) (hz : z < c.range.sz)
    (hvol : c.range.sx * c.range.sy * c.range.sz < 2 ^ 31)
    (hlen : (c.range.sx * c.range.sy * c.range.sz).toNat ≤ c.cache.length) :
    (∃ b, c.get_biome_at x y z = .ok b) ∨
    (∃ code, c.get_biome_at x y z = .error (.BiomeIDOutOfRange code)) := by
  have hsx : 0 < c.range.sx := lt_of_le_of_lt hx0 hx
  have hsz : 0 < c.range.sz := lt_of_le_of_lt hz0 hz
  obtain ⟨hI0, hIvol⟩ := rowmajor_index_bounds c.range.sx c.range.sy
    c.range.sz x y z hx0 hx hy0 hy hz0 hz
  have a1 : 0 ≤ y * c.range.sx := mul_nonneg hy0 hsx.le
  have a2 : 0 ≤ y * c.range.sx * c.range.sz := mul_nonneg a1 hsz.le
  have a3 : 0 ≤ z * c.range.sx := mul_nonneg hz0 hsx.le
  have a4 : y * c.range.sx ≤ y * c.range.sx * c.range.sz :=
    le_mul_of_one_le_right a1 (by linarith)
  have hidx : Cache.cacheIndex c.range x y z
      = y * c.range.sx * c.range.sz + z * c.range.sx + x := by
    refine cacheIndex_eq_of_no_overflow c.range x y z
      ?_ ?_ ?_ ?_ ?_ ?_ ?_ ?_ ?_ ?_ <;> linarith
  have hlt : (y * c.range.sx * c.range.sz + z * c.range.sx + x).toNat
      < c.cache.length := by
    refine lt_of_lt_of_le ?_ hlen
    exact (Int.toNat_lt_toNat (by linarith)).mpr hIvol
  rcases hget : c.cache.get?
      ((y * c.range.sx * c.range.sz + z * c.range.sx + x).toNat)
    with _ | raw
  · exact absurd hlt (not_lt.mpr (List.get?_eq_none.mp hget))
  · have hconv : c.get_biome_at x y z =
        match BiomeID.from_i32 raw with
        | some b => .ok b
        | none => .error (.BiomeIDOutOfRange raw) := by
      apply get_biome_at_eq_conv_of
      rw [hidx, usizeOfI32_of_nonneg hI0 (by linarith)]
      exact hget
    rcases hb : BiomeID.from_i32 raw with _ | b
    · right
      refine ⟨raw, ?_⟩
      rw [hconv, hb]
    · left
      refine ⟨b, ?_⟩
      rw [hconv, hb]

/-- C4 witness: the amended theorem at the filled (1,1,1) cache and
coordinates (0,0,0). -/
theorem get_total_in_range_witness :
    Cache.fill_cache okEngine
        (Generator.new_cache okEngine unitGenerator range111)
      = (.ok (), filledCache111) ∧
    ((∃ b, filledCache111.get_biome_at 0 0 0 = .ok b) ∨
      (∃ code, filledCache111.get_biome_at 0 0 0
        = .error (.BiomeIDOutOfRange code))) :=
  ⟨rfl, get_total_in_range okEngine _ filledCache111 0 0 0 rfl
    (by decide) (by decide) (by decide) (by decide) (by decide) (by decide)
    (by decide) (by decide)⟩

/-- C5 (counterexample): on the filled big cache the mathematical row-major
index of (0, 1, 0) is 2^31 — in bounds, since the filled length is 2^32 —
and the element stored there converts to a valid classification; yet
`get_biome_at 0 1 0` returns `IndexOutOfBound`: the `i32` computation
wraps, so get does not read (and convert) the element at the row-major
index. -/
theorem in_bounds_index_not_read :
    ((1 * filledBigCache.range.sx * filledBigCache.range.sz
        + 0 * filledBigCache.range.sx + 0 : Int).toNat = 2147483648) ∧
    (2147483648 : Nat) < filledBigCache.cache.length ∧
    filledBigCache.cache.get? 2147483648 = some 0 ∧
    BiomeID.from_i32 0 = some .ocean ∧
    filledBigCache.get_biome_at 0 1 0 = .error .IndexOutOfBound := by
  refine ⟨by decide, ?_, ?_, by decide, filledBigCache_get_oob⟩
  · rw [filledBigCache_cache_eq]
    simp only [List.length_map, List.length_range]
    norm_num
  · rw [filledBigCache_cache_eq]
    have h := get?_range_map (okEngine.genBiomesMem () bigRange)
      4294967296 2147483648 (by norm_num)
    rw [h]
    rfl

/-- C5 (amended): when no step of the 32-bit index computation overflows,
`get_biome_at` reads exactly the buffer element at linear index
y * sx * sz + z * sx + x (row-major, y outermost) and returns the
conversion of that stored raw code, failing with `BiomeIDOutOfRange`
carrying the code when the conversion has no mapping. -/
theorem get_reads_row_major_index {σ : Type} (c : Cache σ) (x y z raw : Int)
    (h1 : -(2 ^ 31) ≤ y * c.range.sx) (h2 : y * c.range.sx < 2 ^ 31)
    (h3 : -(2 ^ 31) ≤ y * c.range.sx * c.range.sz)
    (h4 : y * c.range.sx * c.range.sz < 2 ^ 31)
    (h5 : -(2 ^ 31) ≤ z * c.range.sx) (h6 : z * c.range.sx < 2 ^ 31)
    (h7 : -(2 ^ 31) ≤ y * c.range.sx * c.range.sz + z * c.range.sx)
    (h8 : y * c.range.sx * c.range.sz + z * c.range.sx < 2 ^ 31)
    (h9 : 0 ≤ y * c.range.sx * c.range.sz + z * c.range.sx + x)
    (h10 : y * c.range.sx * c.range.sz + z * c.range.sx + x < 2 ^ 31)
    (hget : c.cache.get?
        ((y * c.range.sx * c.range.sz + z * c.range.sx + x).toNat)
      = some raw) :
    c.get_biome_at x y z =
      match BiomeID.from_i32 raw with
      | some b => .ok b
      | none => .error (.BiomeIDOutOfRange raw) := by
  have hidx := cacheIndex_eq_of_no_overflow c.range x y z h1 h2 h3 h4 h5 h6
    h7 h8 (by linarith) h10
  apply get_biome_at_eq_conv_of
  rw [hidx, usizeOfI32_of_nonneg h9 h10]
  exact hget

/-- C5 witness: the amended theorem at the filled (1,1,1) cache and
coordinates (0,0,0), whose stored code 0 converts to `ocean`. -/
theorem get_reads_row_major_index_witness :
    filledCache111.cache.get?
        ((0 * filledCache111.range.sx * filledCache111.range.sz
          + 0 * filledCache111.range.sx + 0 : Int).toNat) = some 0 ∧
    filledCache111.get_biome_at 0 0 0 =
      match BiomeID.from_i32 0 with
      | some b => .ok b
      | none => .error (.BiomeIDOutOfRange 0) :=
  ⟨by decide, get_reads_row_major_index filledCache111 0 0 0 0
    (by decide) (by decide) (by decide) (by decide) (by decide) (by decide)
    (by decide) (by decide) (by decide) (by decide) (by decide)⟩

end Cubiomes
